import Mathlib

/-!
Verification of the bindfit supramolecular fitting engine.

Shallow embedding of src/bindfit/helpers.py, src/bindfit/functions.py and
src/bindfit/fitter.py over exact rational arithmetic.  2-D numpy arrays are
Lists of row Lists; complex scalars (from numpy.lib.scimath) are pairs
(re, im) of rationals.  Library numeric routines that are not part of this
repository (np.roots, np.linalg.lstsq, scimath.sqrt) are treated as oracle
inputs, constrained by their defining properties where a proof needs them.
-/

namespace Bindfit

/-! ### helpers.py -/

/-- helpers.normalise: subtract each row's first observation from the row.
    (numpy: data - repmat(data.T[0,:], m, 1).T) -/
def normalise (data : List (List ℚ)) : List (List ℚ) :=
  data.map (fun row => row.map (fun x => x - row.headD 0))

/-- helpers.denormalise: add the original data's first-observation column back
    to the normalised array.  (numpy: data_norm + repmat(data[:,0], 1, m)) -/
def denormalise (data data_norm : List (List ℚ)) : List (List ℚ) :=
  List.zipWith (fun row nrow => nrow.map (fun x => x + row.headD 0)) data data_norm

/-- helpers.dilute: scale ydata columnwise by xdata[0]/xdata[0][0] and add a
    leading singleton axis ([np.newaxis]). -/
def dilute (xdata ydata : List (List ℚ)) : List (List (List ℚ)) :=
  let h0 := xdata.headD []
  let dilfac := h0.map (fun x => x / h0.headD 0)
  [ydata.map (fun row => List.zipWith (fun a b => a * b) row dilfac)]

theorem normalise_denormalise_row (c : ℚ) (row : List ℚ) :
    (row.map (fun x => x - c)).map (fun x => x + c) = row := by
  rw [List.map_map]
  have h : ((fun x => x + c) ∘ fun x : ℚ => x - c) = id := by
    funext x; simp
  rw [h, List.map_id]

/-- C8: denormalise(data, normalise(data)) = data: normalisation subtracts each
    row's first-observation value and denormalisation adds it back, so the
    round trip is the identity on any 2-D array with at least one observation
    per row. -/
theorem C8_normalise_denormalise_roundtrip (data : List (List ℚ))
    (hobs : ∀ row ∈ data, row ≠ []) :
    denormalise data (normalise data) = data := by
  induction data with
  | nil => rfl
  | cons r rs ih =>
    have hr : denormalise rs (normalise rs) = rs :=
      ih (fun row hrow => hobs row (List.mem_cons_of_mem r hrow))
    simp only [normalise, denormalise, List.map_cons, List.zipWith_cons_cons] at *
    rw [normalise_denormalise_row]
    exact congrArg (r :: ·) hr

/-- Witness for C8 at a concrete 2x2 array. -/
theorem C8_witness :
    (∀ row ∈ [[(1 : ℚ), 2], [3, 5]], row ≠ []) ∧
    denormalise [[(1 : ℚ), 2], [3, 5]] (normalise [[(1 : ℚ), 2], [3, 5]])
      = [[(1 : ℚ), 2], [3, 5]] :=
  ⟨by decide, C8_normalise_denormalise_roundtrip [[(1 : ℚ), 2], [3, 5]] (by decide)⟩

theorem getD_zipWith_mul (a b : List ℚ) (j : ℕ) (hlen : a.length = b.length) :
    (List.zipWith (fun x y => x * y) a b).getD j 0 = a.getD j 0 * b.getD j 0 := by
  induction a generalizing b j with
  | nil =>
    cases b with
    | nil => simp [List.getD]
    | cons y ys => simp at hlen
  | cons x xs ih =>
    cases b with
    | nil => simp at hlen
    | cons y ys =>
      cases j with
      | zero => simp [List.getD]
      | succ n =>
        simp only [List.zipWith_cons_cons, List.getD_cons_succ]
        exact ih ys n (by simpa using hlen)

/-- C10: dilute returns a (1, signal-count, observation-count) array: ydata
    scaled columnwise by xdata[0]/xdata[0][0] under a new leading singleton
    axis, and the dilution factor depends only on the first row of xdata. -/
theorem C10_dilute_shape_formula_first_row (xdata ydata : List (List ℚ))
    (hx : xdata ≠ [])
    (hshape : ∀ row ∈ ydata, row.length = (xdata.headD []).length) :
    (dilute xdata ydata).length = 1
  ∧ ((dilute xdata ydata).headD []).length = ydata.length
  ∧ (∀ i j, (((dilute xdata ydata).headD []).getD i []).getD j 0
        = (ydata.getD i []).getD j 0
          * ((xdata.headD []).getD j 0 / (xdata.headD []).headD 0))
  ∧ (∀ xdata2 : List (List ℚ), xdata2.headD [] = xdata.headD [] →
        dilute xdata2 ydata = dilute xdata ydata) := by
  refine ⟨rfl, by simp [dilute], ?_, ?_⟩
  · intro i j
    simp only [dilute, List.headD_cons]
    by_cases hi : i < ydata.length
    · have hiM : i < (ydata.map (fun row =>
          List.zipWith (fun a b => a * b) row
            ((xdata.headD []).map (fun x => x / (xdata.headD []).headD 0)))).length := by
        simpa using hi
      rw [List.getD_eq_getElem _ _ hiM, List.getElem_map,
        List.getD_eq_getElem _ _ hi]
      have hrow : ydata[i] ∈ ydata := List.getElem_mem hi
      have hlen : (ydata[i]).length
          = ((xdata.headD []).map (fun x => x / (xdata.headD []).headD 0)).length := by
        simpa using hshape _ hrow
      rw [getD_zipWith_mul _ _ _ hlen]
      congr 1
      by_cases hj : j < (xdata.headD []).length
      · have hjM : j < ((xdata.headD []).map
            (fun x => x / (xdata.headD []).headD 0)).length := by simpa using hj
        rw [List.getD_eq_getElem _ _ hjM, List.getElem_map,
          List.getD_eq_getElem _ _ hj]
      · rw [List.getD_eq_default _ _ (by simpa using Nat.le_of_not_lt hj),
          List.getD_eq_default _ _ (Nat.le_of_not_lt hj)]
        exact (zero_div _).symm
    · have h1 : (ydata.map (fun row =>
          List.zipWith (fun a b => a * b) row
            ((xdata.headD []).map (fun x => x / (xdata.headD []).headD 0)))).getD i []
          = [] :=
        List.getD_eq_default _ _ (by simpa using Nat.le_of_not_lt hi)
      have h2 : ydata.getD i [] = [] :=
        List.getD_eq_default _ _ (Nat.le_of_not_lt hi)
      rw [h1, h2]
      simp
  · intro xdata2 h2
    simp only [dilute, h2]

/-- Witness for C10 at a concrete dataset. -/
theorem C10_dilute_witness :
    ([[(2 : ℚ), 4], [7, 7]] : List (List ℚ)) ≠ []
  ∧ (∀ row ∈ [[(10 : ℚ), 20]], row.length = (([[(2 : ℚ), 4], [7, 7]]).headD []).length)
  ∧ ((((dilute [[(2 : ℚ), 4], [7, 7]] [[10, 20]]).headD []).getD 0 []).getD 1 0
      = ((20 : ℚ)) * ((4 : ℚ) / 2)) :=
  ⟨by decide, by decide, by
    have h := C10_dilute_shape_formula_first_row [[(2 : ℚ), 4], [7, 7]] [[10, 20]]
      (by decide) (by decide)
    simpa using h.2.2.1 0 1⟩

/-! ### Matrix helpers (numpy array operations used by functions.py) -/

/-- numpy transpose of a rectangular 2-D array (row width taken from the
    first row). -/
def transposeM (m : List (List ℚ)) : List (List ℚ) :=
  (List.range (m.headD []).length).map (fun j => m.map (fun r => r.getD j 0))

/-- Dot product of two rows. -/
def dotV (a b : List ℚ) : ℚ := (List.zipWith (fun x y => x * y) a b).sum

/-- Matrix product A.dot(B). -/
def matMul (A B : List (List ℚ)) : List (List ℚ) :=
  A.map (fun r => (transposeM B).map (fun c => dotV r c))

/-- Elementwise matrix subtraction. -/
def matSub (A B : List (List ℚ)) : List (List ℚ) :=
  List.zipWith (fun ra rb => List.zipWith (fun x y => x - y) ra rb) A B

/-- np.square(residuals).sum(). -/
def ssrOf (A : List (List ℚ)) : ℚ :=
  (A.map (fun r => (r.map (fun x => x * x)).sum)).sum

/-- coeffs_raw[coeffs_raw < 0] = 0: clamp negative entries to zero. -/
def clampNeg (A : List (List ℚ)) : List (List ℚ) :=
  A.map (fun r => r.map (fun x => if x < 0 then 0 else x))

/-! ### functions.py: the BindingMixin objective layer -/

/-- Python substring test for the two-character pattern used in
    BindingMixin.objective and format_coeffs (the expression
    checking whether the fitter key names a UV model). -/
def hasUV : List Char → Bool
  | 'u' :: 'v' :: _ => true
  | _ :: rest => hasUV rest
  | [] => false

def containsUV (s : String) : Bool := hasUV s.toList

/-- Keyword arguments of a Python call to BindingMixin.objective.  Keywords
    that do not match a named parameter of the signature
    (params, xdata, ydata, scalar=True, ydata_init=None, fit_coeffs=None,
    *args, **kwargs) are absorbed by **kwargs and never read. -/
structure ObjectiveKwargs where
  scalarArg : Option Bool
  ydataInit : Option (List ℚ)
  fitCoeffs : Option (List (List ℚ))
  absorbedKwargs : List String

/-- Return value of BindingMixin.objective: either the scalar sum of squared
    residuals (scalar=True) or the 6-tuple
    (fit, residuals, coeffs_raw, molefrac_raw, coeffs, molefrac). -/
inductive BindingResult where
  | scalarSSR (ssr : ℚ)
  | detailedTuple (fit residuals coeffs_raw molefrac_raw : List (List ℚ))
      (coeffs : Option (List (List ℚ))) (molefrac : List (List ℚ))

/-- BindingMixin.format_coeffs.  Returns none on the fall-through branch the
    source marks with "pass # Throw error here". -/
def format_coeffs (flavour : String) (normFlag : Bool) (fitterKey : String)
    (coeffs : List (List ℚ)) (ydata_init : List ℚ) (h0_init : Option ℚ) :
    Option (List (List ℚ)) :=
  let coeffs1 :=
    if flavour == "add" || flavour == "stat" then
      if normFlag then
        [coeffs.getD 0 [], (coeffs.getD 0 []).map (fun x => x * 2)]
      else
        [coeffs.getD 0 [], coeffs.getD 1 [], (coeffs.getD 1 []).map (fun x => x * 2)]
    else coeffs
  if normFlag then
    let h := match h0_init with
      | some v => if containsUV fitterKey then ydata_init.map (fun x => x / v)
                  else ydata_init
      | none => ydata_init
    if coeffs1.length = 1 then
      some [h, List.zipWith (fun x y => x + y) h (coeffs1.getD 0 [])]
    else if coeffs1.length = 2 then
      some [h, List.zipWith (fun x y => x + y) h (coeffs1.getD 0 []),
            List.zipWith (fun x y => x + y) h (coeffs1.getD 1 [])]
    else none
  else some coeffs1

/-- BindingMixin.objective.  The model f and the numpy least-squares solver
    lstsq are oracles (library calls outside this repository).  The first
    component is the returned value; the second is the final contents of the
    caller's fit_coeffs array (the in-place clamp
    coeffs_raw[coeffs_raw < 0] = 0 acts on the alias coeffs_raw = fit_coeffs
    when fit_coeffs was supplied). -/
def bindingObjective
    (normFlag : Bool) (fitterKey flavour : String)
    (f : List ℚ → List (List ℚ) → String → (List (List ℚ) × List (List ℚ)))
    (lstsq : List (List ℚ) → List (List ℚ) → List (List ℚ))
    (params : List ℚ) (xdata ydata : List (List ℚ))
    (kw : ObjectiveKwargs) : BindingResult × Option (List (List ℚ)) :=
  let mr := f params xdata flavour
  let molefrac_raw := if normFlag then mr.1.tail else mr.1
  let coeffs_pre := match kw.fitCoeffs with
    | some c => c
    | none => lstsq (transposeM molefrac_raw) (transposeM ydata)
  let coeffs_raw := if !normFlag && containsUV fitterKey then clampNeg coeffs_pre
                    else coeffs_pre
  let callerFitCoeffs := kw.fitCoeffs.map (fun _ => coeffs_raw)
  let fit := transposeM (matMul (transposeM molefrac_raw) coeffs_raw)
  let residuals := matSub fit ydata
  if kw.scalarArg.getD true then
    (BindingResult.scalarSSR (ssrOf residuals), callerFitCoeffs)
  else
    (BindingResult.detailedTuple fit residuals coeffs_raw molefrac_raw
      (format_coeffs flavour normFlag fitterKey coeffs_raw (kw.ydataInit.getD [])
        (some ((xdata.headD []).getD 0 0))) mr.2,
     callerFitCoeffs)

/-- The keyword arguments of the post-fit call in Fitter.run_scipy:
    objective(result.x, x, y, detailed=True, force_molefrac=True).
    Neither keyword matches a parameter of the objective's signature, so both
    are absorbed by **kwargs; in particular scalar is not passed and keeps its
    default value True. -/
def runScipyDetailedKwargs : ObjectiveKwargs :=
  { scalarArg := none, ydataInit := none, fitCoeffs := none,
    absorbedKwargs := ["detailed", "force_molefrac"] }

/-- C1: FALSIFIED BY THE CODE.  The post-fit call in Fitter.run_scipy passes
    detailed=True and force_molefrac=True, but BindingMixin.objective's mode
    keyword is named scalar (default True) and the unknown keywords are
    absorbed by **kwargs, so for every objective built by construct over the
    BindingMixin the call returns the scalar sum of squared residuals, never
    the detailed tuple; the 4-way unpacking in run_scipy therefore cannot
    yield fit, residuals, coeffs and molefrac as the claim states. -/
theorem C1_run_scipy_detailed_call_returns_scalar
    (normFlag : Bool) (fitterKey flavour : String)
    (f : List ℚ → List (List ℚ) → String → (List (List ℚ) × List (List ℚ)))
    (lstsq : List (List ℚ) → List (List ℚ) → List (List ℚ))
    (params : List ℚ) (xdata ydata : List (List ℚ)) :
    ∃ q, (bindingObjective normFlag fitterKey flavour f lstsq params xdata ydata
            runScipyDetailedKwargs).1 = BindingResult.scalarSSR q :=
  ⟨_, rfl⟩

theorem clampNeg_ne_of_neg_entry (c : List (List ℚ))
    (h : ∃ row ∈ c, ∃ x ∈ row, x < 0) : clampNeg c ≠ c := by
  rcases h with ⟨row, hrow, x, hx, hneg⟩
  intro heq
  have hrow2 : row.map (fun x : ℚ => if x < 0 then 0 else x) = row := by
    rcases List.getElem_of_mem hrow with ⟨i, hi, hrow_eq⟩
    have := congrArg (fun l => l.getD i []) heq
    simp only [clampNeg] at this
    rw [List.getD_eq_getElem _ _ (by simpa using hi), List.getElem_map,
      List.getD_eq_getElem _ _ hi] at this
    rw [hrow_eq] at this
    exact this
  have hx2 : (if x < 0 then (0 : ℚ) else x) = x := by
    rcases List.getElem_of_mem hx with ⟨i, hi, hx_eq⟩
    have := congrArg (fun l => l.getD i 0) hrow2
    dsimp only at this
    rw [List.getD_eq_getElem _ _ (by simpa using hi), List.getElem_map,
      List.getD_eq_getElem _ _ hi] at this
    rw [hx_eq] at this
    exact this
  rw [if_pos hneg] at hx2
  exact absurd hx2.symm (ne_of_lt hneg)

/-- C9: when the objective's normalise flag is False and the fitter key
    contains "uv", BindingMixin.objective clamps every negative entry of the
    coefficient array to zero in place; when the caller supplied fit_coeffs
    (as during error estimation) the caller's own array ends up clamped, so
    the objective has a side effect on its argument whenever that array has a
    negative entry. -/
theorem C9_objective_mutates_caller_fit_coeffs
    (fitterKey flavour : String)
    (f : List ℚ → List (List ℚ) → String → (List (List ℚ) × List (List ℚ)))
    (lstsq : List (List ℚ) → List (List ℚ) → List (List ℚ))
    (params : List ℚ) (xdata ydata : List (List ℚ))
    (c : List (List ℚ)) (kwScalar : Option Bool) (kwY : Option (List ℚ))
    (extra : List String)
    (huv : containsUV fitterKey = true) :
    (bindingObjective false fitterKey flavour f lstsq params xdata ydata
        { scalarArg := kwScalar, ydataInit := kwY, fitCoeffs := some c,
          absorbedKwargs := extra }).2 = some (clampNeg c)
  ∧ ((∃ row ∈ c, ∃ x ∈ row, x < 0) → some (clampNeg c) ≠ some c) := by
  constructor
  · cases hb : kwScalar.getD true <;>
      simp [bindingObjective, huv, hb]
  · intro hneg heq
    exact clampNeg_ne_of_neg_entry c hneg (Option.some_injective _ heq)

/-- Witness for C9: a "uv" fitter key without normalisation and a caller
    coefficient array holding a negative entry, which the call replaces. -/
theorem C9_witness :
    containsUV "uv1to2" = true
  ∧ (bindingObjective false "uv1to2" "none" (fun _ _ _ => ([], []))
        (fun _ _ => []) [] [] []
        { scalarArg := none, ydataInit := none, fitCoeffs := some [[-1, 2]],
          absorbedKwargs := [] }).2 = some (clampNeg [[-1, 2]])
  ∧ some (clampNeg [[(-1 : ℚ), 2]]) ≠ some [[(-1 : ℚ), 2]] := by
  have h := C9_objective_mutates_caller_fit_coeffs "uv1to2" "none"
    (fun _ _ _ => ([], [])) (fun _ _ => []) [] [] [] [[-1, 2]] none none []
    (by decide)
  exact ⟨by decide, h.1, h.2 ⟨[-1, 2], by decide, -1, by decide, by decide⟩⟩

/-! ### functions.py: cubic-based models, per-observation root selection

np.roots is a numeric library routine; each observation's root multiset is an
oracle input, a list of complex numbers represented as (re, im) pairs. -/

/-- The selection predicate of the cubic models:
    np.all([np.imag(roots) == 0, np.real(roots) >= 0], axis=0). -/
def validRoot (r : ℚ × ℚ) : Bool := r.2 == 0 && decide (0 ≤ r.1)

/-- The per-observation root selection shared by uv_1to2, nmr_1to2, nmr_2to1,
    uv_2to1, nmr_coek and uv_coek: keep the roots with zero imaginary part and
    non-negative real part; take the minimum (numpy min on complex values with
    equal zero imaginary parts orders by real part); default to 0.0 when no
    root qualifies. -/
def selectRoot (roots : List (ℚ × ℚ)) : ℚ :=
  match roots.filter validRoot with
  | [] => 0
  | r :: rs => (rs.map Prod.fst).foldl min r.1

/-- Cubic coefficients (a, b, c, d) of uv_1to2 for one observation. -/
def uv_1to2_poly (k11 k12 h0 g0 : ℚ) : ℚ × ℚ × ℚ × ℚ :=
  (k11 * k12, 2 * k11 * k12 * h0 + k11 - g0 * k11 * k12,
   1 + k11 * h0 - k11 * g0, -g0)

/-- Cubic coefficients (a, b, c, d) of nmr_1to2 for one observation. -/
def nmr_1to2_poly (k11 k12 h0 g0 : ℚ) : ℚ × ℚ × ℚ × ℚ :=
  (k11 * k12, 2 * k11 * k12 * h0 + k11 - g0 * k11 * k12,
   1 + k11 * h0 - k11 * g0, -g0)

/-- Cubic coefficients (a, b, c, d) of nmr_2to1 for one observation. -/
def nmr_2to1_poly (k11 k12 h0 g0 : ℚ) : ℚ × ℚ × ℚ × ℚ :=
  (k11 * k12, 2 * k11 * k12 * g0 + k11 - h0 * k11 * k12,
   1 + k11 * g0 - k11 * h0, -h0)

/-- Cubic coefficients (a, b, c, d) of uv_2to1 for one observation. -/
def uv_2to1_poly (k11 k12 h0 g0 : ℚ) : ℚ × ℚ × ℚ × ℚ :=
  (k11 * k12, 2 * k11 * k12 * g0 + k11 - h0 * k11 * k12,
   1 + k11 * g0 - k11 * h0, -h0)

/-- Cubic coefficients (a, b, c, d) of nmr_coek for one observation. -/
def nmr_coek_poly (ke rho h0 : ℚ) : ℚ × ℚ × ℚ × ℚ :=
  ((ke * h0) ^ 2 - rho * (ke * h0) ^ 2,
   2 * rho * ke * h0 - 2 * ke * h0 - (ke * h0) ^ 2, 2 * ke * h0 + 1, -1)

/-- Cubic coefficients (a, b, c, d) of uv_coek for one observation. -/
def uv_coek_poly (ke rho h0 : ℚ) : ℚ × ℚ × ℚ × ℚ :=
  ((ke * h0) ^ 2 - rho * (ke * h0) ^ 2,
   2 * rho * ke * h0 - 2 * ke * h0 - (ke * h0) ^ 2, 2 * ke * h0 + 1, -1)

/-- The per-observation loop of uv_1to2 computing the free guest
    concentration array g from the observations' root lists. -/
def uv_1to2_g (rootss : List (List (ℚ × ℚ))) : List ℚ := rootss.map selectRoot

/-- The per-observation loop of nmr_1to2. -/
def nmr_1to2_g (rootss : List (List (ℚ × ℚ))) : List ℚ := rootss.map selectRoot

/-- The per-observation loop of nmr_2to1 computing the free host array h. -/
def nmr_2to1_h (rootss : List (List (ℚ × ℚ))) : List ℚ := rootss.map selectRoot

/-- The per-observation loop of uv_2to1. -/
def uv_2to1_h (rootss : List (List (ℚ × ℚ))) : List ℚ := rootss.map selectRoot

/-- The per-observation loop of nmr_coek. -/
def nmr_coek_h (rootss : List (List (ℚ × ℚ))) : List ℚ := rootss.map selectRoot

/-- The per-observation loop of uv_coek. -/
def uv_coek_h (rootss : List (List (ℚ × ℚ))) : List ℚ := rootss.map selectRoot

theorem foldl_min_mem (a : ℚ) (xs : List ℚ) : xs.foldl min a ∈ a :: xs := by
  induction xs generalizing a with
  | nil => simp
  | cons x xs ih =>
    rw [List.foldl_cons]
    rcases List.mem_cons.mp (ih (min a x)) with h | h
    · rw [h]
      rcases min_cases a x with ⟨hm, _⟩ | ⟨hm, _⟩
      · rw [hm]; exact List.mem_cons_self _ _
      · rw [hm]; exact List.mem_cons_of_mem _ (List.mem_cons_self _ _)
    · exact List.mem_cons_of_mem _ (List.mem_cons_of_mem _ h)

theorem foldl_min_le (a : ℚ) (xs : List ℚ) :
    xs.foldl min a ≤ a ∧ ∀ x ∈ xs, xs.foldl min a ≤ x := by
  induction xs generalizing a with
  | nil => simp
  | cons x xs ih =>
    rcases ih (min a x) with ⟨h1, h2⟩
    simp only [List.foldl_cons]
    refine ⟨le_trans h1 (min_le_left _ _), ?_⟩
    intro y hy
    rcases List.mem_cons.mp hy with rfl | hy
    · exact le_trans h1 (min_le_right _ _)
    · exact h2 _ hy

/-- C4: for every cubic-based model (uv_1to2, nmr_1to2, nmr_2to1, uv_2to1,
    nmr_coek, uv_coek) and every observation, the free-species concentration
    is selected from that observation's cubic roots by keeping exactly the
    roots with zero imaginary part and non-negative real part, taking the
    minimum such real value when any remain and 0 otherwise; each
    observation's selection uses only that observation's root list. -/
theorem C4_cubic_root_selection (roots : List (ℚ × ℚ))
    (rootss : List (List (ℚ × ℚ))) (i : ℕ) :
    (roots.filter validRoot = [] → selectRoot roots = 0)
  ∧ (∀ r ∈ roots, r.2 = 0 → 0 ≤ r.1 →
      (∃ r0 ∈ roots, r0.2 = 0 ∧ 0 ≤ r0.1 ∧ selectRoot roots = r0.1)
      ∧ selectRoot roots ≤ r.1)
  ∧ (uv_1to2_g rootss).get? i = (rootss.get? i).map selectRoot
  ∧ (nmr_1to2_g rootss).get? i = (rootss.get? i).map selectRoot
  ∧ (nmr_2to1_h rootss).get? i = (rootss.get? i).map selectRoot
  ∧ (uv_2to1_h rootss).get? i = (rootss.get? i).map selectRoot
  ∧ (nmr_coek_h rootss).get? i = (rootss.get? i).map selectRoot
  ∧ (uv_coek_h rootss).get? i = (rootss.get? i).map selectRoot := by
  refine ⟨?_, ?_, List.get?_map _ _ _, List.get?_map _ _ _, List.get?_map _ _ _,
    List.get?_map _ _ _, List.get?_map _ _ _, List.get?_map _ _ _⟩
  · intro h
    simp [selectRoot, h]
  · intro r hr him hre
    have hrf : r ∈ roots.filter validRoot := by
      rw [List.mem_filter]
      exact ⟨hr, by simp [validRoot, him, hre]⟩
    rcases hf : roots.filter validRoot with _ | ⟨r0, rs⟩
    · rw [hf] at hrf; exact absurd hrf (List.not_mem_nil r)
    · have hsel : selectRoot roots = (rs.map Prod.fst).foldl min r0.1 := by
        simp [selectRoot, hf]
      constructor
      · have hmem : (rs.map Prod.fst).foldl min r0.1 ∈ r0.1 :: rs.map Prod.fst :=
          foldl_min_mem _ _
      -- the selected value is the real part of some valid root
        have hmem2 : (rs.map Prod.fst).foldl min r0.1 ∈ (r0 :: rs).map Prod.fst := by
          simpa using hmem
        rcases List.mem_map.mp hmem2 with ⟨r1, hr1, hr1eq⟩
        have hr1' : r1 ∈ roots.filter validRoot := by rw [hf]; exact hr1
        rcases List.mem_filter.mp hr1' with ⟨hr1mem, hr1valid⟩
        have him1 : r1.2 = 0 := by
          have := (Bool.and_eq_true _ _).mp hr1valid
          exact eq_of_beq this.1
        have hre1 : 0 ≤ r1.1 := by
          have := (Bool.and_eq_true _ _).mp hr1valid
          exact of_decide_eq_true this.2
        exact ⟨r1, hr1mem, him1, hre1, by rw [hsel, hr1eq]⟩
      · rw [hf] at hrf
        rcases List.mem_cons.mp hrf with heq | hmem
        · rw [hsel, heq]; exact (foldl_min_le _ _).1
        · rw [hsel]
          exact (foldl_min_le _ _).2 r.1 (List.mem_map_of_mem Prod.fst hmem)

/-- Witness for C4 at a concrete root list: among the roots 3, -1, 2+i and
    1/2, the selection keeps 3 and 1/2 and returns the minimum 1/2. -/
theorem C4_witness :
    ((3 : ℚ), (0 : ℚ)) ∈ [((3 : ℚ), (0 : ℚ)), (-1, 0), (2, 1), (1/2, 0)]
  ∧ selectRoot [((3 : ℚ), (0 : ℚ)), (-1, 0), (2, 1), (1/2, 0)] ≤ 3
  ∧ (uv_1to2_g [[((3 : ℚ), (0 : ℚ)), (-1, 0), (2, 1), (1/2, 0)]]).get? 0
      = some (selectRoot [((3 : ℚ), (0 : ℚ)), (-1, 0), (2, 1), (1/2, 0)]) := by
  have h := C4_cubic_root_selection [((3 : ℚ), (0 : ℚ)), (-1, 0), (2, 1), (1/2, 0)]
    [[((3 : ℚ), (0 : ℚ)), (-1, 0), (2, 1), (1/2, 0)]] 0
  exact ⟨by decide, (h.2.1 (3, 0) (by decide) (by decide) (by decide)).2,
    by simpa using h.2.2.1⟩

/-! ### functions.py: 1:1 binding models

np.lib.scimath.sqrt is a library routine returning a complex number; its
result is an oracle input (re, im) constrained by scimathSqrtSpec.  Complex
scalars are (re, im) pairs of rationals; the models are embedded per
observation (every numpy operation involved is elementwise). -/

/-- Defining property of np.lib.scimath.sqrt on a real argument x: for
    x >= 0 the principal square root is real and non-negative, for x < 0 it
    is purely imaginary with non-negative imaginary part. -/
def scimathSqrtSpec (x : ℚ) (r : ℚ × ℚ) : Prop :=
  (0 ≤ x → r.2 = 0 ∧ 0 ≤ r.1 ∧ r.1 ^ 2 = x)
  ∧ (x < 0 → r.1 = 0 ∧ 0 ≤ r.2 ∧ r.2 ^ 2 = -x)

instance (x : ℚ) (r : ℚ × ℚ) : Decidable (scimathSqrtSpec x r) := by
  unfold scimathSqrtSpec; infer_instance

/-- The discriminant under the square root in nmr_1to1 and uv_1to1:
    (g0 + h0 + 1/k)^2 - 4*(g0*h0). -/
def oneToOneDisc (k h0 g0 : ℚ) : ℚ := (g0 + h0 + 1/k) ^ 2 - 4 * (g0 * h0)

/-- The real-branch bound-complex concentration
    hg = 0.5*((g0 + h0 + 1/k) - sqrt(disc)) given the real part of the
    oracle square root. -/
def oneToOneHG (k h0 g0 sqRe : ℚ) : ℚ := ((g0 + h0 + 1/k) - sqRe) / 2

/-- nmr_1to1 for one observation: computes hg, then h = h0 - hg, replaces hg
    by the oracle geometric mean gm when imag(hg) > 0 (h is not updated),
    then divides both by h0; returns (hg_mat_fit, hg_mat), each the pair of
    complex rows (h, hg). -/
def nmr_1to1 (k h0 g0 : ℚ) (sq : ℚ × ℚ) (gm : ℚ) :
    ((ℚ × ℚ) × (ℚ × ℚ)) × ((ℚ × ℚ) × (ℚ × ℚ)) :=
  let s := g0 + h0 + 1/k
  let hg0 : ℚ × ℚ := ((s - sq.1) / 2, (0 - sq.2) / 2)
  let h : ℚ × ℚ := (h0 - hg0.1, 0 - hg0.2)
  let hg : ℚ × ℚ := if 0 < hg0.2 then (gm, 0) else hg0
  (((h.1 / h0, h.2 / h0), (hg.1 / h0, hg.2 / h0)),
   ((h.1 / h0, h.2 / h0), (hg.1 / h0, hg.2 / h0)))

/-- uv_1to1 for one observation: same computation as nmr_1to1 but
    hg_mat_fit keeps the absolute concentrations (h, hg) while hg_mat holds
    the display molefractions (h/h0, hg/h0). -/
def uv_1to1 (k h0 g0 : ℚ) (sq : ℚ × ℚ) (gm : ℚ) :
    ((ℚ × ℚ) × (ℚ × ℚ)) × ((ℚ × ℚ) × (ℚ × ℚ)) :=
  let s := g0 + h0 + 1/k
  let hg0 : ℚ × ℚ := ((s - sq.1) / 2, (0 - sq.2) / 2)
  let h : ℚ × ℚ := (h0 - hg0.1, 0 - hg0.2)
  let hg : ℚ × ℚ := if 0 < hg0.2 then (gm, 0) else hg0
  ((h, hg), ((h.1 / h0, h.2 / h0), (hg.1 / h0, hg.2 / h0)))

/-- C5 counterexample: the claim as stated fails for nmr_1to1.  At k = 3/2,
    h0 = g0 = 1/2 (all positive, discriminant 16/9 with exact square root
    4/3) the model returns molefractions, and the returned free-host entry is
    2/3, outside the claimed interval [0, h0] = [0, 1/2]. -/
theorem C5_counterexample :
    0 < (3/2 : ℚ) ∧ 0 < (1/2 : ℚ)
  ∧ scimathSqrtSpec (oneToOneDisc (3/2) (1/2) (1/2)) (4/3, 0)
  ∧ (nmr_1to1 (3/2) (1/2) (1/2) (4/3, 0) (1/2)).1.1 = ((2/3 : ℚ), (0 : ℚ))
  ∧ ¬ ((2/3 : ℚ) ≤ 1/2) := by
  refine ⟨by norm_num, by norm_num, ?_, ?_, by norm_num⟩
  · unfold scimathSqrtSpec oneToOneDisc
    norm_num
  · unfold nmr_1to1
    norm_num

theorem oneToOne_disc_nonneg (k h0 g0 : ℚ) (hk : 0 < k) (hh : 0 < h0)
    (hg : 0 < g0) : 0 ≤ oneToOneDisc k h0 g0 := by
  have hik : 0 < 1/k := by positivity
  unfold oneToOneDisc
  nlinarith [sq_nonneg (g0 - h0), sq_nonneg (1/k), mul_pos hik hh, mul_pos hik hg]

theorem oneToOneHG_nonneg (k h0 g0 sqRe : ℚ) (hk : 0 < k) (hh : 0 < h0)
    (hg : 0 < g0) (hre : 0 ≤ sqRe) (hsq : sqRe ^ 2 = oneToOneDisc k h0 g0) :
    0 ≤ oneToOneHG k h0 g0 sqRe := by
  have hik : 0 < 1/k := by positivity
  have hs : 0 < g0 + h0 + 1/k := by linarith
  unfold oneToOneHG
  unfold oneToOneDisc at hsq
  nlinarith [mul_pos hg hh, sq_nonneg (g0 + h0 + 1/k + sqRe)]

theorem oneToOneHG_le_h0 (k h0 g0 sqRe : ℚ) (hk : 0 < k) (hh : 0 < h0)
    (hg : 0 < g0) (hre : 0 ≤ sqRe) (hsq : sqRe ^ 2 = oneToOneDisc k h0 g0) :
    oneToOneHG k h0 g0 sqRe ≤ h0 := by
  have hik : 0 < 1/k := by positivity
  unfold oneToOneHG
  unfold oneToOneDisc at hsq
  rcases le_or_lt (g0 + h0 + 1/k - 2 * h0) 0 with hc | hc
  · linarith
  · by_contra hcon
    push_neg at hcon
    have h1 : sqRe < g0 + h0 + 1/k - 2 * h0 := by linarith
    have h2 : sqRe ^ 2 < (g0 + h0 + 1/k - 2 * h0) ^ 2 := by nlinarith
    nlinarith [mul_pos hh hik]

theorem oneToOneHG_le_g0 (k h0 g0 sqRe : ℚ) (hk : 0 < k) (hh : 0 < h0)
    (hg : 0 < g0) (hre : 0 ≤ sqRe) (hsq : sqRe ^ 2 = oneToOneDisc k h0 g0) :
    oneToOneHG k h0 g0 sqRe ≤ g0 := by
  have hik : 0 < 1/k := by positivity
  unfold oneToOneHG
  unfold oneToOneDisc at hsq
  rcases le_or_lt (g0 + h0 + 1/k - 2 * g0) 0 with hc | hc
  · linarith
  · by_contra hcon
    push_neg at hcon
    have h1 : sqRe < g0 + h0 + 1/k - 2 * g0 := by linarith
    have h2 : sqRe ^ 2 < (g0 + h0 + 1/k - 2 * g0) ^ 2 := by nlinarith
    nlinarith [mul_pos hg hik]

/-- C5 amended: for k > 0 and positive h0, g0 the discriminant is
    non-negative, the square-root replacement never fires, and the underlying
    concentrations hg and h = h0 - hg satisfy 0 <= hg <= min(h0, g0) and
    0 <= h <= h0; uv_1to1's returned fit rows are exactly these
    concentrations, while nmr_1to1 returns them divided by h0
    (molefractions), not the concentrations themselves. -/
theorem C5_one_to_one_bounds (k h0 g0 : ℚ) (sq : ℚ × ℚ) (gm : ℚ)
    (hk : 0 < k) (hh : 0 < h0) (hg : 0 < g0)
    (hsq : scimathSqrtSpec (oneToOneDisc k h0 g0) sq) :
    (uv_1to1 k h0 g0 sq gm).1
      = ((h0 - oneToOneHG k h0 g0 sq.1, 0), (oneToOneHG k h0 g0 sq.1, 0))
  ∧ (nmr_1to1 k h0 g0 sq gm).1
      = (((h0 - oneToOneHG k h0 g0 sq.1) / h0, 0),
         (oneToOneHG k h0 g0 sq.1 / h0, 0))
  ∧ 0 ≤ oneToOneHG k h0 g0 sq.1
  ∧ oneToOneHG k h0 g0 sq.1 ≤ h0
  ∧ oneToOneHG k h0 g0 sq.1 ≤ g0
  ∧ 0 ≤ h0 - oneToOneHG k h0 g0 sq.1
  ∧ h0 - oneToOneHG k h0 g0 sq.1 ≤ h0 := by
  have hdisc : 0 ≤ oneToOneDisc k h0 g0 := oneToOne_disc_nonneg k h0 g0 hk hh hg
  rcases hsq.1 hdisc with ⟨him, hre, hpow⟩
  have hg0le : oneToOneHG k h0 g0 sq.1 ≤ h0 :=
    oneToOneHG_le_h0 k h0 g0 sq.1 hk hh hg hre hpow
  have hg0ge : 0 ≤ oneToOneHG k h0 g0 sq.1 :=
    oneToOneHG_nonneg k h0 g0 sq.1 hk hh hg hre hpow
  have hnorep : ¬ (0 < (0 - sq.2) / 2) := by rw [him]; norm_num
  refine ⟨?_, ?_, hg0ge, hg0le,
    oneToOneHG_le_g0 k h0 g0 sq.1 hk hh hg hre hpow, by linarith, by linarith⟩
  · simp only [uv_1to1, oneToOneHG, if_neg hnorep, him]
    norm_num
  · simp only [nmr_1to1, oneToOneHG, if_neg hnorep, him]
    norm_num

/-- Witness for C5 at k = 4, h0 = g0 = 1/2 (discriminant 9/16, square root
    3/4, geometric mean 1/2). -/
theorem C5_witness :
    0 < (4 : ℚ) ∧ 0 < (1/2 : ℚ)
  ∧ scimathSqrtSpec (oneToOneDisc 4 (1/2) (1/2)) (3/4, 0)
  ∧ ((uv_1to1 4 (1/2) (1/2) (3/4, 0) (1/2)).1
      = (((1/2 : ℚ) - oneToOneHG 4 (1/2) (1/2) (3/4), 0),
         (oneToOneHG 4 (1/2) (1/2) (3/4), 0))
    ∧ (nmr_1to1 4 (1/2) (1/2) (3/4, 0) (1/2)).1
      = ((((1/2 : ℚ) - oneToOneHG 4 (1/2) (1/2) (3/4)) / (1/2), 0),
         (oneToOneHG 4 (1/2) (1/2) (3/4) / (1/2), 0))
    ∧ 0 ≤ oneToOneHG 4 (1/2) (1/2) (3/4)
    ∧ oneToOneHG 4 (1/2) (1/2) (3/4) ≤ 1/2
    ∧ oneToOneHG 4 (1/2) (1/2) (3/4) ≤ 1/2
    ∧ 0 ≤ (1/2 : ℚ) - oneToOneHG 4 (1/2) (1/2) (3/4)
    ∧ (1/2 : ℚ) - oneToOneHG 4 (1/2) (1/2) (3/4) ≤ 1/2) :=
  ⟨by norm_num, by norm_num, by unfold scimathSqrtSpec oneToOneDisc; norm_num,
   C5_one_to_one_bounds 4 (1/2) (1/2) (3/4, 0) (1/2) (by norm_num) (by norm_num)
     (by norm_num) (by unfold scimathSqrtSpec oneToOneDisc; norm_num)⟩

/-! ### functions.py: 1:2 and 2:1 binding models, per observation

The free-species value (g for 1:2, h for 2:1) is the root-selected
concentration of C4; the algebra after the root loop is embedded here per
observation.  Each model returns (fit rows, display molefraction triple). -/

/-- uv_1to2 after the root loop, for one observation with free guest g. -/
def uv_1to2_obs (flavour : String) (k11 k12p h0 g0 g : ℚ) :
    List ℚ × (ℚ × ℚ × ℚ) :=
  let k12 := if flavour == "noncoop" || flavour == "stat" then k11 / 4 else k12p
  let den := 1 + g * k11 + g * g * k11 * k12
  let hg := h0 * ((g * k11) / den)
  let hg2 := h0 * ((g * g * k11 * k12) / den)
  let h := h0 - hg - hg2
  (if flavour == "add" || flavour == "stat" then [h, hg + 2 * hg2]
   else [h, hg, hg2],
   (h / h0, hg / h0, hg2 / h0))

/-- nmr_1to2 after the root loop, for one observation with free guest g. -/
def nmr_1to2_obs (flavour : String) (k11 k12p h0 g0 g : ℚ) :
    List ℚ × (ℚ × ℚ × ℚ) :=
  let k12 := if flavour == "noncoop" || flavour == "stat" then k11 / 4 else k12p
  let den := 1 + g * k11 + g * g * k11 * k12
  let hg := (g * k11) / den
  let hg2 := (g * g * k11 * k12) / den
  let h := 1 - hg - hg2
  (if flavour == "add" || flavour == "stat" then [h, hg + 2 * hg2]
   else [h, hg, hg2],
   (h, hg, hg2))

/-- nmr_2to1 after the root loop, for one observation with free host hf. -/
def nmr_2to1_obs (flavour : String) (k11 k12p h0 g0 hf : ℚ) :
    List ℚ × (ℚ × ℚ × ℚ) :=
  let k12 := if flavour == "noncoop" || flavour == "stat" then k11 / 4 else k12p
  let den := 1 + hf * k11 + hf * hf * k11 * k12
  let hg := (g0 * hf * k11) / (h0 * den)
  let h2g := (2 * g0 * hf * hf * k11 * k12) / (h0 * den)
  let h := 1 - hg - h2g
  (if flavour == "add" || flavour == "stat" then [h, hg + 2 * h2g]
   else [h, hg, h2g],
   (h, hg, h2g))

/-- uv_2to1 after the root loop, for one observation with free host hf. -/
def uv_2to1_obs (flavour : String) (k11 k12p h0 g0 hf : ℚ) :
    List ℚ × (ℚ × ℚ × ℚ) :=
  let k12 := if flavour == "noncoop" || flavour == "stat" then k11 / 4 else k12p
  let den := 1 + hf * k11 + hf * hf * k11 * k12
  let hg := g0 * ((hf * k11) / den)
  let h2g := g0 * ((2 * hf * hf * k11 * k12) / den)
  let h := h0 - hg - h2g
  (if flavour == "add" || flavour == "stat" then [h, hg + 2 * h2g]
   else [h, hg, h2g],
   (h / h0, hg / h0, h2g / h0))

theorem sum3_div (h0 x y : ℚ) (hh0 : h0 ≠ 0) :
    (h0 - x - y) / h0 + x / h0 + y / h0 = 1 := by
  field_simp
  ring

/-- C6: for every binding model (1:1, 1:2, 2:1, NMR and UV forms) and every
    observation, the rows of the returned display molefraction array sum to 1
    (free host plus all bound species); for the 1:1 models, whose entries are
    complex pairs, the real parts sum to 1 and the imaginary parts to 0. -/
theorem C6_molefrac_rows_sum_to_one
    (k h0 g0 : ℚ) (sq : ℚ × ℚ) (gm : ℚ) (flavour : String)
    (k11 k12p g hf : ℚ) (hh0 : h0 ≠ 0) (hsq : 0 ≤ sq.2) :
    ((nmr_1to1 k h0 g0 sq gm).2.1.1 + (nmr_1to1 k h0 g0 sq gm).2.2.1 = 1
      ∧ (nmr_1to1 k h0 g0 sq gm).2.1.2 + (nmr_1to1 k h0 g0 sq gm).2.2.2 = 0)
  ∧ ((uv_1to1 k h0 g0 sq gm).2.1.1 + (uv_1to1 k h0 g0 sq gm).2.2.1 = 1
      ∧ (uv_1to1 k h0 g0 sq gm).2.1.2 + (uv_1to1 k h0 g0 sq gm).2.2.2 = 0)
  ∧ ((uv_1to2_obs flavour k11 k12p h0 g0 g).2.1
      + (uv_1to2_obs flavour k11 k12p h0 g0 g).2.2.1
      + (uv_1to2_obs flavour k11 k12p h0 g0 g).2.2.2 = 1)
  ∧ ((nmr_1to2_obs flavour k11 k12p h0 g0 g).2.1
      + (nmr_1to2_obs flavour k11 k12p h0 g0 g).2.2.1
      + (nmr_1to2_obs flavour k11 k12p h0 g0 g).2.2.2 = 1)
  ∧ ((nmr_2to1_obs flavour k11 k12p h0 g0 hf).2.1
      + (nmr_2to1_obs flavour k11 k12p h0 g0 hf).2.2.1
      + (nmr_2to1_obs flavour k11 k12p h0 g0 hf).2.2.2 = 1)
  ∧ ((uv_2to1_obs flavour k11 k12p h0 g0 hf).2.1
      + (uv_2to1_obs flavour k11 k12p h0 g0 hf).2.2.1
      + (uv_2to1_obs flavour k11 k12p h0 g0 hf).2.2.2 = 1) := by
  have hnorep : ¬ (0 < (0 - sq.2) / 2) := by
    intro hlt
    have : (0 - sq.2) / 2 ≤ 0 := by linarith
    linarith
  refine ⟨?_, ?_, ?_, ?_, ?_, ?_⟩
  · simp only [nmr_1to1, if_neg hnorep]
    constructor
    · rw [div_add_div_same]; field_simp
    · rw [div_add_div_same]; ring_nf
  · simp only [uv_1to1, if_neg hnorep]
    constructor
    · rw [div_add_div_same]; field_simp
    · rw [div_add_div_same]; ring_nf
  · simp only [uv_1to2_obs]
    exact sum3_div h0 _ _ hh0
  · simp only [nmr_1to2_obs]
    ring
  · simp only [nmr_2to1_obs]
    ring
  · simp only [uv_2to1_obs]
    exact sum3_div h0 _ _ hh0

/-- Witness for C6 at concrete inputs (k = 4, h0 = g0 = 1/2, real square
    root, flavour "none", k11 = k12 = 1, free species 1). -/
theorem C6_witness :
    ((1/2 : ℚ) ≠ 0) ∧ (0 : ℚ) ≤ ((3/4 : ℚ), (0 : ℚ)).2
  ∧ ((nmr_1to1 4 (1/2) (1/2) (3/4, 0) (1/2)).2.1.1
      + (nmr_1to1 4 (1/2) (1/2) (3/4, 0) (1/2)).2.2.1 = 1)
  ∧ ((uv_1to2_obs "none" 1 1 (1/2) (1/2) 1).2.1
      + (uv_1to2_obs "none" 1 1 (1/2) (1/2) 1).2.2.1
      + (uv_1to2_obs "none" 1 1 (1/2) (1/2) 1).2.2.2 = 1)
  ∧ ((nmr_2to1_obs "none" 1 1 (1/2) (1/2) 1).2.1
      + (nmr_2to1_obs "none" 1 1 (1/2) (1/2) 1).2.2.1
      + (nmr_2to1_obs "none" 1 1 (1/2) (1/2) 1).2.2.2 = 1) := by
  have h := C6_molefrac_rows_sum_to_one 4 (1/2) (1/2) (3/4, 0) (1/2) "none"
    1 1 1 1 (by norm_num) (by norm_num)
  exact ⟨by norm_num, by norm_num, h.1.1, h.2.2.1, h.2.2.2.2.1⟩

/-! ### fitter.py: Fitter.statistics sensitivity loop (C2)

The statistics code contains blocks marked "TODO: DEBUG TEMP" that are live
code: three hard-coded arrays from a Matlab session, transcribed below
exactly as they appear in the source. -/

/-- Hard-coded array matlab_fit from Fitter.statistics. -/
def matlabFit : List ℚ :=
  [0.260980004891973,
   0.261356346284718,
   0.261728036526842,
   0.262095159604778,
   0.262457802288570,
   0.262993550336373,
   0.263519685132872,
   0.264206705618678,
   0.264877719496410,
   0.265533307260044,
   0.266174022576733,
   0.266800393649557,
   0.267412924517197,
   0.268012096291599,
   0.268598368335050,
   0.269172179378370,
   0.269733948582118,
   0.270284076542882,
   0.270822946246791,
   0.271350923972484,
   0.271868360145761,
   0.272375590148171,
   0.272872935081741,
   0.273360702492039,
   0.274075036987498,
   0.274769425785596,
   0.275444755107045,
   0.276316978818846,
   0.277158634322402,
   0.278367483015657,
   0.279516551623408,
   0.280963607186894,
   0.282322275589818,
   0.283909010713929,
   0.285384779249066,
   0.287286865316257,
   0.289720077091490,
   0.291874030873545,
   0.293796290957534,
   0.296323934036766,
   0.301009759277683,
   0.309148360101187,
   0.319118851731557,
   0.329588014577170,
   0.337870384086082,
   0.344619659554336,
   0.352712072520314,
   0.365725911315436,
   0.372034938785321,
   0.378483305364665,
   0.384294588691350,
   0.388820345850703,
   0.392115233903391,
   0.396591589497526,
   0.400588595691663,
   0.403636777149600,
   0.405841052479933,
   0.385300005835962,
   0.385749047775225,
   0.386192695884397,
   0.386631045382319,
   0.387064194955958,
   0.387704379665094,
   0.388333396688657,
   0.389155239444060,
   0.389958462749610,
   0.390743728326411,
   0.391511667706103,
   0.392262883751172,
   0.392997952105495,
   0.393717422576265,
   0.394421820448802,
   0.395111647736096,
   0.395787384365163,
   0.396449489302439,
   0.397098401620604,
   0.397734541509243,
   0.398358311231814,
   0.398970096031403,
   0.399570264987690,
   0.400159171827556,
   0.401022153680025,
   0.401861642433532,
   0.402678659853476,
   0.403734714549783,
   0.404754648747120,
   0.406221082832681,
   0.407616665280647,
   0.409376464170259,
   0.411031094654075,
   0.412966294016293,
   0.414768857393628,
   0.417095926234781,
   0.420078880549252,
   0.422725042372877,
   0.425090845006701,
   0.428207655910544,
   0.434002633749143,
   0.444114956144941,
   0.456572374661279,
   0.469717189517752,
   0.480152473262456,
   0.488674888253518,
   0.498911360009452,
   0.515405734030328,
   0.523413591826441,
   0.531604598572515,
   0.538991076197802,
   0.544746311324475,
   0.548937661024678,
   0.554633616547882,
   0.559721137908782,
   0.563601852607864,
   0.566408620169864,
   0.355999993598842,
   0.355507455354480,
   0.355020817816291,
   0.354539977041722,
   0.354064825269465,
   0.353362534947617,
   0.352672463776041,
   0.351770802731527,
   0.350889516734297,
   0.350027883059705,
   0.349185211914731,
   0.348360844780986,
   0.347554152833686,
   0.346764535435363,
   0.345991418702664,
   0.345234254144243,
   0.344492517367494,
   0.343765706851660,
   0.343053342784787,
   0.342354965961834,
   0.341670136741296,
   0.340998434057623,
   0.340339454486792,
   0.339692811362409,
   0.338745170667074,
   0.337823268129905,
   0.336925986580994,
   0.335766102379368,
   0.334645802167111,
   0.333034913911009,
   0.331501692612079,
   0.329568107864947,
   0.327749849288523,
   0.325622999375433,
   0.323641656529665,
   0.321083417436472,
   0.317803542909203,
   0.314893443315425,
   0.312291250921564,
   0.308862433604867,
   0.302485713019646,
   0.291353674844550,
   0.277633436732839,
   0.263149970274011,
   0.251648531691757,
   0.242253620359524,
   0.230967465158361,
   0.212778626558398,
   0.203947040217257,
   0.194912873481010,
   0.186765607883589,
   0.180417341479584,
   0.175793978332334,
   0.169510767140315,
   0.163898577694404,
   0.159617567596186,
   0.156521239935652,
   0.272779994840286,
   0.272382948648283,
   0.271990598013252,
   0.271602861103334,
   0.271219652950695,
   0.270653151122098,
   0.270096380689313,
   0.269368705221463,
   0.268657266495294,
   0.267961494034271,
   0.267280843194820,
   0.266614793872061,
   0.265962849264612,
   0.265324534697547,
   0.264699396502234,
   0.264087000951525,
   0.263486933248552,
   0.262898796567245,
   0.262322211142583,
   0.261756813408528,
   0.261202255181560,
   0.260658202887735,
   0.260124336831187,
   0.259600350502062,
   0.258832255692814,
   0.258084789069860,
   0.257357064045930,
   0.256416037539960,
   0.255506782162788,
   0.254198767355024,
   0.252953174640130,
   0.251381440068654,
   0.249902557513614,
   0.248171599123022,
   0.246558028755778,
   0.244473197089226,
   0.241797944836711,
   0.239422184367834,
   0.237296167996554,
   0.234492538211339,
   0.229272095697232,
   0.220140766040664,
   0.208860517628652,
   0.196928762631071,
   0.187440240576179,
   0.179682644866061,
   0.170356744501105,
   0.155315076523804,
   0.148007377218997,
   0.140529745339582,
   0.133784475627655,
   0.128527628146258,
   0.124698632252871,
   0.119494358600864,
   0.114845325973059,
   0.111298692351821,
   0.108733352713190]

/-- Hard-coded array matlab_fit_shift_0 from Fitter.statistics. -/
def matlabFitShift0 : List ℚ :=
  [0.260980004891978,
   0.261356346580314,
   0.261728037110623,
   0.262095160469532,
   0.262457803427280,
   0.262993551873266,
   0.263519687053193,
   0.264206708028299,
   0.264877722371476,
   0.265533310577958,
   0.266174026316089,
   0.266800397790072,
   0.267412929039652,
   0.268012101177777,
   0.268598373567683,
   0.269172184941085,
   0.269733954459387,
   0.270284082719974,
   0.270822952709730,
   0.271350930708004,
   0.271868367141270,
   0.272375597391711,
   0.272872942561952,
   0.273360710198130,
   0.274075045013337,
   0.274769434109782,
   0.275444763709727,
   0.276316987764421,
   0.277158643581164,
   0.278367492694432,
   0.279516561669586,
   0.280963617652901,
   0.282322286407962,
   0.283909021893805,
   0.285384790719541,
   0.287286877099476,
   0.289720089179861,
   0.291874043150006,
   0.293796303342213,
   0.296323946485835,
   0.301009771642543,
   0.309148371834221,
   0.319118862152503,
   0.329588023310577,
   0.337870391420149,
   0.344619665767784,
   0.352712077458121,
   0.365725914439214,
   0.372034941159482,
   0.378483307070897,
   0.384294589885405,
   0.388820346706979,
   0.392115234548177,
   0.396591589902221,
   0.400588595928547,
   0.403636777288338,
   0.405841052563887,
   0.385300005835968,
   0.385749048127907,
   0.386192696581010,
   0.386631046414345,
   0.387064196315105,
   0.387704381499861,
   0.388333398981606,
   0.389155242321987,
   0.389958466184308,
   0.390743732291150,
   0.391511672175554,
   0.392262888701326,
   0.392997957513593,
   0.393717428420727,
   0.394421826709163,
   0.395111654392945,
   0.395787391400081,
   0.396449496697948,
   0.397098409360114,
   0.397734549577001,
   0.398358319612859,
   0.398970104711520,
   0.399570273953374,
   0.400159181065968,
   0.401022163304828,
   0.401861652419241,
   0.402678670176431,
   0.403734725288488,
   0.404754659866115,
   0.406221094462643,
   0.407616677358632,
   0.409376476761675,
   0.411031107677663,
   0.412966307485739,
   0.414768871223168,
   0.417095940454686,
   0.420078895154947,
   0.422725057221622,
   0.425090860000531,
   0.428207671001001,
   0.434002648771431,
   0.444114970453289,
   0.456572387423353,
   0.469717200255326,
   0.480152482304418,
   0.488674895929420,
   0.498911366122847,
   0.515405737909628,
   0.523413594778645,
   0.531604600696754,
   0.538991077685894,
   0.544746312392400,
   0.548937661829251,
   0.554633617053201,
   0.559721138204731,
   0.563601852781266,
   0.566408620274825,
   0.355999993598836,
   0.355507454967637,
   0.355020817052195,
   0.354539975909708,
   0.354064823778618,
   0.353362532935029,
   0.352672461260820,
   0.351770799574548,
   0.350889512966475,
   0.350027878710334,
   0.349185207011573,
   0.348360839350357,
   0.347554146900533,
   0.346764529023340,
   0.345991411834203,
   0.345234246840626,
   0.344492509648909,
   0.343765698737270,
   0.343053334292781,
   0.342354957109484,
   0.341670127545005,
   0.340998424532976,
   0.340339444648600,
   0.339692801224750,
   0.338745160105107,
   0.337823257171581,
   0.336925975252260,
   0.335766090593951,
   0.334645789963905,
   0.333034901146360,
   0.331501679355045,
   0.329568094043497,
   0.327749834991837,
   0.325622984588275,
   0.323641641346194,
   0.321083401823103,
   0.317803526870503,
   0.314893427008268,
   0.312291234453670,
   0.308862417029005,
   0.302485696515323,
   0.291353659119326,
   0.277633422701738,
   0.263149958464608,
   0.251648521744811,
   0.242253611913858,
   0.230967458430602,
   0.212778622288109,
   0.203947036967137,
   0.194912871142159,
   0.186765606245010,
   0.180417340303587,
   0.175793977446301,
   0.169510766583802,
   0.163898577368456,
   0.159617567405200,
   0.156521239820044,
   0.272779994840281,
   0.272382948336446,
   0.271990597397274,
   0.271602860190706,
   0.271219651748707,
   0.270653149499320,
   0.270096378661083,
   0.269368702675444,
   0.268657263456306,
   0.267961490525838,
   0.267280839239239,
   0.266614789490469,
   0.265962844477051,
   0.265324529523026,
   0.264699390958781,
   0.264086995056246,
   0.263486927017679,
   0.262898790016186,
   0.262322204285968,
   0.261756806260251,
   0.261202247754819,
   0.260658195195070,
   0.260124328884521,
   0.259600342312727,
   0.258832247159523,
   0.258084780215125,
   0.257357054890656,
   0.256416028013946,
   0.255506772297395,
   0.254198757033187,
   0.252953163917586,
   0.251381428886217,
   0.249902545943366,
   0.248171587151804,
   0.246558016459842,
   0.244473184439989,
   0.241797931836095,
   0.239422171143501,
   0.237296154636384,
   0.234492524756365,
   0.229272082287251,
   0.220140753243063,
   0.208860506189157,
   0.196928752986840,
   0.187440232443498,
   0.179682637954960,
   0.170356738990716,
   0.155315073021760,
   0.148007374552150,
   0.140529743419496,
   0.133784474281895,
   0.128527627180120,
   0.124698631524798,
   0.119494358143439,
   0.114845325705085,
   0.111298692194777,
   0.108733352618117]

/-- Hard-coded array matlab_fit_shift_1 from Fitter.statistics. -/
def matlabFitShift1 : List ℚ :=
  [0.260980004891973,
   0.261356346285912,
   0.261728036531563,
   0.262095159615274,
   0.262457802307010,
   0.262993550370621,
   0.263519685187378,
   0.264206705706696,
   0.264877719624877,
   0.265533307435388,
   0.266174022804904,
   0.266800393936060,
   0.267412924867118,
   0.268012096709632,
   0.268598368825524,
   0.269172179945269,
   0.269733949229106,
   0.270284077273321,
   0.270822947063764,
   0.271350924878810,
   0.271868361144015,
   0.272375591240696,
   0.272872936270666,
   0.273360703779292,
   0.274075038425453,
   0.274769427377589,
   0.275444756855887,
   0.276316980780381,
   0.277158636499791,
   0.278367485520880,
   0.279516554459171,
   0.280963610464179,
   0.282322279306206,
   0.283909014971655,
   0.285384784036250,
   0.287286870820084,
   0.289720083562872,
   0.291874038243159,
   0.293796299157071,
   0.296323943361168,
   0.301009770758880,
   0.309148375400733,
   0.319118871484655,
   0.329588038303768,
   0.337870410195651,
   0.344619686997320,
   0.352712100749537,
   0.365725938759443,
   0.372034964875368,
   0.378483329383559,
   0.384294610234014,
   0.388820365057571,
   0.392115251182800,
   0.396591603849397,
   0.400588607126716,
   0.403636786167231,
   0.405841059644998,
   0.385300005835962,
   0.385749047776729,
   0.386192695890341,
   0.386631045395536,
   0.387064194979177,
   0.387704379708222,
   0.388333396757296,
   0.389155239554907,
   0.389958462911403,
   0.390743728547251,
   0.391511667993493,
   0.392262884112051,
   0.392997952546277,
   0.393717423102872,
   0.394421821066695,
   0.395111648450305,
   0.395787385180313,
   0.396449490222779,
   0.397098402650029,
   0.397734542651317,
   0.398358312489792,
   0.398970097408249,
   0.399570266486101,
   0.400159173449975,
   0.401022155492522,
   0.401861644440342,
   0.402678662058171,
   0.403734717022857,
   0.404754651492607,
   0.406221085991992,
   0.407616668857298,
   0.409376468304529,
   0.411031099343077,
   0.412966299389405,
   0.414768863436064,
   0.417095933183520,
   0.420078888722210,
   0.422725051682936,
   0.425090855367867,
   0.428207667697084,
   0.434002648270866,
   0.444114975515671,
   0.456572399698249,
   0.469717219621095,
   0.480152506411688,
   0.488674923112701,
   0.498911395885957,
   0.515405768933513,
   0.523413625017416,
   0.531604629136971,
   0.538991103617377,
   0.544746335775018,
   0.548937683024011,
   0.554633634822649,
   0.559721152471228,
   0.563601864092760,
   0.566408629295890,
   0.355999993598842,
   0.355507455352822,
   0.355020817809739,
   0.354539977027156,
   0.354064825243875,
   0.353362534900086,
   0.352672463700393,
   0.351770802609361,
   0.350889516555980,
   0.350027882816309,
   0.349185211597987,
   0.348360844383246,
   0.347554152347880,
   0.346764534854962,
   0.345991418021649,
   0.345234253357070,
   0.344492516469062,
   0.343765705837287,
   0.343053341650179,
   0.342354964703062,
   0.341670135354771,
   0.340998432540075,
   0.340339452835249,
   0.339692809574178,
   0.338745168669325,
   0.337823265917968,
   0.336925984150929,
   0.335766099653466,
   0.334645799140921,
   0.333034910428643,
   0.331501688669652,
   0.329568103307803,
   0.327749844119831,
   0.325622993452541,
   0.323641649868853,
   0.321083409776442,
   0.317803533899388,
   0.314893433051824,
   0.312291239498948,
   0.308862420610481,
   0.302485697008945,
   0.291353653485815,
   0.277633409123738,
   0.263149937075225,
   0.251648495131768,
   0.242253581912043,
   0.230967425587089,
   0.212778588058372,
   0.203947003604973,
   0.194912839765200,
   0.186765577636336,
   0.180417314507175,
   0.175793954063726,
   0.169510746980222,
   0.163898561629449,
   0.159617554926217,
   0.156521229867902,
   0.272779994840286,
   0.272382948646916,
   0.271990598007849,
   0.271602861091320,
   0.271219652929588,
   0.270653151082894,
   0.270096380626917,
   0.269368705120696,
   0.268657266348210,
   0.267961493833503,
   0.267280842933546,
   0.266614793543967,
   0.265962848863864,
   0.265324534218757,
   0.264699395940434,
   0.264087000302136,
   0.263486932507364,
   0.262898795730390,
   0.262322210206515,
   0.261756812370001,
   0.261202254037609,
   0.260658201635657,
   0.260124335468526,
   0.259600349026590,
   0.258832254044418,
   0.258084787244675,
   0.257357062040695,
   0.256416035290516,
   0.255506779665445,
   0.254198764481057,
   0.252953171386293,
   0.251381436307194,
   0.249902553247085,
   0.248171594233528,
   0.246558023256682,
   0.244473190764542,
   0.241797937396566,
   0.239422175891344,
   0.237296158561875,
   0.234492527476972,
   0.229272082467885,
   0.220140748385169,
   0.208860494796345,
   0.196928735165166,
   0.187440210321248,
   0.179682613042909,
   0.170356711740966,
   0.155315044641510,
   0.148007346896392,
   0.140529717412810,
   0.133784450571631,
   0.128527605801574,
   0.124698612147188,
   0.119494341897975,
   0.114845312662395,
   0.111298681853711,
   0.108733344371026]

/-- The perturbation delta d = np.float64(1e-6) (embedded as the exact
    rational 1e-6). -/
def statisticsDelta : ℚ := 1/1000000

/-- The sensitivity loop of Fitter.statistics.  For parameter i the code
    computes pi_shift = pi*(1 + d), obtains a perturbed fit (modelled by the
    oracle shiftFit, standing for the objective call and postprocessing), then
    OVERRIDES it with matlab_fit_shift_0 (i = 0) or matlab_fit_shift_1
    (i = 1), and sets the numerator to fit_shift - matlab_fit (the line using
    self.fit is commented out); diffs[i] = num/(pi_shift - pi). -/
def statDiffs (params : List ℚ) (shiftFit : ℕ → List ℚ) : List (List ℚ) :=
  (List.range params.length).map (fun i =>
    let pi := params.getD i 0
    let piShift := pi * (1 + statisticsDelta)
    let fitShift := if i = 0 then matlabFitShift0
                    else if i = 1 then matlabFitShift1
                    else shiftFit i
    (List.zipWith (fun a b => a - b) fitShift matlabFit).map
      (fun x => x / (piShift - pi)))

/-- C2: FALSIFIED BY THE CODE.  For a two-parameter fit the sensitivity
    vectors computed by Fitter.statistics are entirely independent of the
    objective function's perturbed fits (first conjunct: the oracle standing
    for the objective call can be replaced by any other without changing the
    result), and the parameter-0 sensitivity is the hard-coded difference
    matlab_fit_shift_0 - matlab_fit divided by the parameter step, not
    (perturbed fit - this fit's stored curve): the debug-temp blocks override
    the perturbed curve and subtract the hard-coded matlab_fit instead of
    self.fit, and the objective call passes no fit_coeffs, so nothing of the
    current fit's curves or fixed coefficients enters the sensitivities. -/
theorem C2_sensitivities_use_hardcoded_data (p0 p1 : ℚ)
    (shiftFitA shiftFitB : ℕ → List ℚ) :
    statDiffs [p0, p1] shiftFitA = statDiffs [p0, p1] shiftFitB
  ∧ (statDiffs [p0, p1] shiftFitA).getD 0 []
      = (List.zipWith (fun a b => a - b) matlabFitShift0 matlabFit).map
          (fun x => x / (p0 * (1 + statisticsDelta) - p0)) :=
  ⟨rfl, rfl⟩

/-! ### fitter.py: Fitter.run_scipy molefraction assembly -/

/-- Column sum molefrac.sum(axis=0) at observation j. -/
def colSumAt (m : List (List ℚ)) (j : ℕ) : ℚ :=
  (m.map (fun r => r.getD j 0)).sum

/-- The free-host molefraction row synthesized in Fitter.run_scipy:
    np.ones(molefrac.shape[1]) minus molefrac.sum(axis=0). -/
def molefracHost (m : List (List ℚ)) : List ℚ :=
  (List.range (m.headD []).length).map (fun j => 1 - colSumAt m j)

/-- The stored molefraction array self.molefrac:
    np.vstack((molefrac_host, molefrac)). -/
def run_scipy_molefrac (m : List (List ℚ)) : List (List ℚ) :=
  molefracHost m :: m

/-- C7: the stored molefraction array is the model-returned array with one
    extra row prepended; at every observation the prepended first-row entry is
    1 minus the sum of that observation's complex-species molefractions, so
    the stored array always includes the free-host row and its columns
    (host + complexes) sum to 1. -/
theorem C7_molefrac_host_row_prepended (m : List (List ℚ)) (j : ℕ)
    (hj : j < (m.headD []).length) :
    (run_scipy_molefrac m).length = m.length + 1
  ∧ (run_scipy_molefrac m).tail = m
  ∧ ((run_scipy_molefrac m).headD []).getD j 0
      = 1 - (m.map (fun r => r.getD j 0)).sum
  ∧ ((run_scipy_molefrac m).headD []).getD j 0
      + (m.map (fun r => r.getD j 0)).sum = 1 := by
  have hhead : ((run_scipy_molefrac m).headD []).getD j 0 = 1 - colSumAt m j := by
    simp only [run_scipy_molefrac, List.headD_cons, molefracHost]
    have hjr : j < ((List.range (m.headD []).length).map
        (fun j => 1 - colSumAt m j)).length := by simpa using hj
    rw [List.getD_eq_getElem _ _ hjr, List.getElem_map, List.getElem_range]
  refine ⟨rfl, rfl, ?_, ?_⟩
  · rw [hhead]; rfl
  · rw [hhead]
    simp only [colSumAt]
    ring

/-- Witness for C7 at a concrete 2x2 molefraction array. -/
theorem C7_witness :
    (0 : ℕ) < ((([[(1/4 : ℚ), 1/3], [1/4, 1/2]]).headD []).length)
  ∧ ((run_scipy_molefrac [[(1/4 : ℚ), 1/3], [1/4, 1/2]]).headD []).getD 0 0
      + (([[(1/4 : ℚ), 1/3], [1/4, 1/2]]).map (fun r => r.getD 0 0)).sum = 1 := by
  have h := C7_molefrac_host_row_prepended [[(1/4 : ℚ), 1/3], [1/4, 1/2]] 0
    (by norm_num)
  exact ⟨by norm_num, h.2.2.2⟩

/-! ### fitter.py: Fitter.statistics degrees of freedom and variances (C3) -/

/-- d_free = self.ydata.size - len(params) - self.coeffs.size. -/
def d_free (ydataSize nParams nCoeffs : ℕ) : ℤ :=
  (ydataSize : ℤ) - (nParams : ℤ) - (nCoeffs : ℤ)

/-- The per-parameter variances (m_diag*ssr)/(d_free - 1); the code takes
    their square roots as sigma.  The division is performed unconditionally
    (rational division by zero is the junk value 0 here; numpy produces a
    non-finite float and a warning, not an exception). -/
def statVariances (mDiag : List ℚ) (ssr : ℚ) (df : ℤ) : List ℚ :=
  mDiag.map (fun m => (m * ssr) / ((df : ℚ) - 1))

/-- The tail of Fitter.statistics after the Gram-matrix inversion: computes
    d_free and the variance vector, with no branch on the value of d_free. -/
def statisticsTail (mDiag : List ℚ) (ssr : ℚ) (ydataSize nParams nCoeffs : ℕ) :
    ℤ × List ℚ :=
  (d_free ydataSize nParams nCoeffs,
   statVariances mDiag ssr (d_free ydataSize nParams nCoeffs))

/-- Follows the words of the spec for comparison (refinement target): the
    statistics engine must report a distinguishable failure when the degrees
    of freedom are at most 1, instead of silently performing the variance
    division by (degrees of freedom - 1). -/
def statisticsTailSpec (mDiag : List ℚ) (ssr : ℚ)
    (ydataSize nParams nCoeffs : ℕ) : Except String (ℤ × List ℚ) :=
  let df := d_free ydataSize nParams nCoeffs
  if df ≤ 1 then Except.error "degrees of freedom at most 1"
  else Except.ok (df, statVariances mDiag ssr df)

/-- C3 counterexample: at ydata.size = 4, one fitted parameter and two
    coefficients the degrees of freedom equal 1, yet the code returns a plain
    value (it divides by d_free - 1 = 0 with no failure report), differing
    from the spec-mandated distinguishable failure. -/
theorem C3_counterexample :
    d_free 4 1 2 = 1
  ∧ Except.ok (statisticsTail [2] 3 4 1 2) ≠ statisticsTailSpec [2] 3 4 1 2 := by
  constructor
  · norm_num [d_free]
  · simp [statisticsTail, statisticsTailSpec, d_free]

/-- C3 amended: the statistics engine computes degrees of freedom as
    (dependent-variable data point count) - (fitted nonlinear parameter
    count) - (fitted linear coefficient count); when degrees of freedom
    exceed 1 its result agrees with the spec's computation, but when degrees
    of freedom are at most 1 it still performs the per-parameter variance
    division by (degrees of freedom - 1) silently instead of reporting a
    distinguishable failure. -/
theorem C3_dfree_formula_and_silent_division (mDiag : List ℚ) (ssr : ℚ)
    (y p c : ℕ) :
    (statisticsTail mDiag ssr y p c).1 = (y : ℤ) - (p : ℤ) - (c : ℤ)
  ∧ (1 < d_free y p c →
      Except.ok (statisticsTail mDiag ssr y p c) = statisticsTailSpec mDiag ssr y p c)
  ∧ (d_free y p c ≤ 1 →
      (statisticsTail mDiag ssr y p c).2
        = mDiag.map (fun m => (m * ssr) / ((d_free y p c : ℚ) - 1))) := by
  refine ⟨rfl, ?_, fun _ => rfl⟩
  intro h
  unfold statisticsTailSpec
  rw [if_neg (not_le.mpr h)]
  rfl

/-- Witness for C3: one input with degrees of freedom 5 (agreement with the
    spec computation) and one with degrees of freedom 1 (silent division). -/
theorem C3_witness :
    (1 : ℤ) < d_free 10 2 3
  ∧ Except.ok (statisticsTail [1] 1 10 2 3) = statisticsTailSpec [1] 1 10 2 3
  ∧ d_free 4 2 1 ≤ 1
  ∧ (statisticsTail [1] 1 4 2 1).2
      = ([1] : List ℚ).map (fun m => (m * 1) / ((d_free 4 2 1 : ℚ) - 1)) :=
  ⟨by norm_num [d_free],
   (C3_dfree_formula_and_silent_division [1] 1 10 2 3).2.1 (by norm_num [d_free]),
   by norm_num [d_free],
   (C3_dfree_formula_and_silent_division [1] 1 4 2 1).2.2 (by norm_num [d_free])⟩

end Bindfit
